import Mathlib

/-!
Shallow embedding of the StatefulSet service of the redis-operator repository
(`service/k8s/statefulset.go`).  The Kubernetes client is modelled as a record
of response functions; each service operation is a pure function that returns
its result together with the list of calls it issued against the backing store
and the list of reports it sent to the metrics recorder.
-/

set_option autoImplicit false

/-- Structured error kinds of the backing store, as distinguished by the
`k8s.io/apimachinery/pkg/api/errors` helpers (`IsNotFound` etc.). -/
inductive ErrKind where
  | notFound
  | forbidden
  | conflict
  | invalid
  | unavailable
  | other
  deriving DecidableEq, Repr

/-- A structured error returned by the backing store client. -/
structure K8sError where
  kind : ErrKind
  msg : String
  deriving DecidableEq, Repr

/-- Models `errors.IsNotFound` from `k8s.io/apimachinery/pkg/api/errors`:
a structured check on the error kind, not string matching. -/
def isNotFound : K8sError → Bool
  | ⟨ErrKind.notFound, _⟩ => true
  | _ => false

/-- The error component of a fallible result (`nil` on success in Go). -/
def errOf {α : Type} : Except K8sError α → Option K8sError
  | Except.ok _ => none
  | Except.error e => some e

/-- True when the result is a success. -/
def isOkB {α : Type} : Except K8sError α → Bool
  | Except.ok _ => true
  | Except.error _ => false

/-- True when the result is a NotFound error. -/
def isNotFoundRes {α : Type} : Except K8sError α → Bool
  | Except.ok _ => false
  | Except.error e => isNotFound e

/-- `metav1.ObjectMeta`: the fields the service reads or writes (`Name`,
`ResourceVersion`); `metaRest` abstracts every remaining metadata field. -/
structure ObjectMeta where
  name : String
  resourceVersion : String
  metaRest : String
  deriving DecidableEq, Repr

/-- `metav1.LabelSelector`: the `MatchLabels` map, modelled as an association
list (Go map iteration order is unspecified; the list fixes one order). -/
structure LabelSelector where
  matchLabels : List (String × String)
  deriving DecidableEq, Repr

/-- `appsv1.StatefulSetSpec`: the selector the service reads; `specRest`
abstracts every remaining spec field. -/
structure StatefulSetSpec where
  selector : LabelSelector
  specRest : String
  deriving DecidableEq, Repr

/-- `appsv1.StatefulSet` as the service uses it. -/
structure StatefulSet where
  meta : ObjectMeta
  spec : StatefulSetSpec
  deriving DecidableEq, Repr

/-- A pod, for the pod list issued by `GetStatefulSetPods`. -/
structure Pod where
  name : String
  ns : String
  labels : List (String × String)
  deriving DecidableEq, Repr

/-- `metav1.ListOptions`: only the `LabelSelector` field is ever set. -/
structure ListOptions where
  labelSelector : String
  deriving DecidableEq, Repr

/-- `metav1.DeletionPropagation`. -/
inductive PropagationPolicy where
  | foreground
  | background
  | orphan
  deriving DecidableEq, Repr

/-- `metav1.DeleteOptions`: only the `PropagationPolicy` field is ever set;
`none` is the server-side default policy. -/
structure DeleteOptions where
  propagationPolicy : Option PropagationPolicy
  deriving DecidableEq, Repr

/-- The verbs reported to the metrics recorder. -/
inductive Verb where
  | GET
  | CREATE
  | UPDATE
  | DELETE
  | LIST
  deriving DecidableEq, Repr

/-- One report sent to the metrics recorder. -/
structure MetricEvent where
  ns : String
  kind : String
  objName : String
  verb : Verb
  err : Option K8sError
  deriving DecidableEq, Repr

/-- One call issued against the backing store. -/
inductive StoreCall where
  | get (ns name : String)
  | create (ns : String) (sts : StatefulSet)
  | update (ns : String) (sts : StatefulSet)
  | delete (ns name : String) (opts : DeleteOptions)
  | listSts (ns : String) (opts : ListOptions)
  | listPods (ns : String) (opts : ListOptions)
  deriving DecidableEq, Repr

/-- The backing store client (`kubernetes.Interface`), one response function
per call the service can issue. -/
structure StsClient where
  get : String → String → Except K8sError StatefulSet
  create : String → StatefulSet → Except K8sError StatefulSet
  update : String → StatefulSet → Except K8sError StatefulSet
  delete : String → String → DeleteOptions → Option K8sError
  listSts : String → ListOptions → Except K8sError (List StatefulSet)
  listPods : String → ListOptions → Except K8sError (List Pod)

/-- Result of running one service operation: the returned value, the store
calls issued, and the metric reports emitted, in order. -/
structure ExecOut (α : Type) where
  res : α
  calls : List StoreCall
  events : List MetricEvent
  deriving Repr

/-- Modelled from the spec: `recordMetrics` (its body lives in a repository
file that is not part of the sources) forwards exactly one report to the
Instrumentation Sink carrying namespace, resource kind, object name, verb and
the error (nil on success). -/
def recordMetrics (ns kind name : String) (verb : Verb) (err : Option K8sError) : MetricEvent :=
  ⟨ns, kind, name, verb, err⟩

/-- Modelled from the spec: `metrics.NOT_APPLICABLE` (the metrics package is
not part of the sources), the sentinel object name used for list operations
with no single target. -/
def NOT_APPLICABLE : String := "N/A"

/-- `GetStatefulSet`: fetch by namespace and name, report the GET, return the
object or the error unchanged. -/
def getStatefulSet (c : StsClient) (ns name : String) :
    ExecOut (Except K8sError StatefulSet) :=
  let r := c.get ns name
  ⟨r, [StoreCall.get ns name],
    [recordMetrics ns "StatefulSet" name Verb.GET (errOf r)]⟩

/-- The label-selector string `GetStatefulSetPods` builds: each match-label
pair rendered `k=v` and the pieces joined by commas. -/
def selectorOf (sts : StatefulSet) : String :=
  String.intercalate "," (sts.spec.selector.matchLabels.map (fun kv => kv.1 ++ "=" ++ kv.2))

/-- `GetStatefulSetPods`: fetch the StatefulSet through `GetStatefulSet`,
then list pods by the derived label selector.  The pod list call itself
records no metric. -/
def getStatefulSetPods (c : StsClient) (ns name : String) :
    ExecOut (Except K8sError (List Pod)) :=
  let g := getStatefulSet c ns name
  match g.res with
  | Except.error e => ⟨Except.error e, g.calls, g.events⟩
  | Except.ok sts =>
    let sel := selectorOf sts
    let r := c.listPods ns ⟨sel⟩
    ⟨r, g.calls ++ [StoreCall.listPods ns ⟨sel⟩], g.events⟩

/-- `CreateStatefulSet`: create, report the CREATE, return the error (nil on
success). -/
def createStatefulSet (c : StsClient) (ns : String) (sts : StatefulSet) :
    ExecOut (Option K8sError) :=
  let r := c.create ns sts
  ⟨errOf r, [StoreCall.create ns sts],
    [recordMetrics ns "StatefulSet" sts.meta.name Verb.CREATE (errOf r)]⟩

/-- `UpdateStatefulSet`: update, report the UPDATE, return the error (nil on
success). -/
def updateStatefulSet (c : StsClient) (ns : String) (sts : StatefulSet) :
    ExecOut (Option K8sError) :=
  let r := c.update ns sts
  ⟨errOf r, [StoreCall.update ns sts],
    [recordMetrics ns "StatefulSet" sts.meta.name Verb.UPDATE (errOf r)]⟩

/-- `statefulSet.ResourceVersion = v`, the one in-place write the synchronizer
performs on its input. -/
def setResourceVersion (sts : StatefulSet) (v : String) : StatefulSet :=
  { sts with meta := { sts.meta with resourceVersion := v } }

/-- `CreateOrUpdateStatefulSet`: fetch; on NotFound create; on any other fetch
error stop; on success overwrite the desired object's ResourceVersion with the
stored one and update.  The second result component is the final value of the
caller-supplied object (Go mutates it through a pointer). -/
def createOrUpdateStatefulSet (c : StsClient) (ns : String) (sts : StatefulSet) :
    ExecOut (Option K8sError × StatefulSet) :=
  let g := getStatefulSet c ns sts.meta.name
  match g.res with
  | Except.error e =>
    if isNotFound e then
      let cr := createStatefulSet c ns sts
      ⟨(cr.res, sts), g.calls ++ cr.calls, g.events ++ cr.events⟩
    else
      ⟨(some e, sts), g.calls, g.events⟩
  | Except.ok stored =>
    let sts2 := setResourceVersion sts stored.meta.resourceVersion
    let up := updateStatefulSet c ns sts2
    ⟨(up.res, sts2), g.calls ++ up.calls, g.events ++ up.events⟩

/-- The delete options `DeleteStatefulSet` always uses: foreground cascading
propagation. -/
def foregroundDelete : DeleteOptions := ⟨some PropagationPolicy.foreground⟩

/-- `DeleteStatefulSet`: delete with foreground propagation, report the
DELETE, return the error. -/
def deleteStatefulSet (c : StsClient) (ns name : String) :
    ExecOut (Option K8sError) :=
  let r := c.delete ns name foregroundDelete
  ⟨r, [StoreCall.delete ns name foregroundDelete],
    [recordMetrics ns "StatefulSet" name Verb.DELETE r]⟩

/-- `ListStatefulSets`: list with empty options, report the LIST with the
not-applicable sentinel, return the result. -/
def listStatefulSets (c : StsClient) (ns : String) :
    ExecOut (Except K8sError (List StatefulSet)) :=
  let r := c.listSts ns ⟨""⟩
  ⟨r, [StoreCall.listSts ns ⟨""⟩],
    [recordMetrics ns "StatefulSet" NOT_APPLICABLE Verb.LIST (errOf r)]⟩

/-- Is this store call a CREATE? -/
def isCreateCall : StoreCall → Bool
  | StoreCall.create _ _ => true
  | _ => false

/-- Is this store call an UPDATE? -/
def isUpdateCall : StoreCall → Bool
  | StoreCall.update _ _ => true
  | _ => false

/-- Is this store call a pod LIST? -/
def isListPodsCall : StoreCall → Bool
  | StoreCall.listPods _ _ => true
  | _ => false

/-- The objects passed to UPDATE calls, in order. -/
def updateArgs (l : List StoreCall) : List StatefulSet :=
  l.filterMap (fun k => match k with
    | StoreCall.update _ s => some s
    | _ => none)

/-- The namespace a store call targets. -/
def callNs : StoreCall → String
  | StoreCall.get ns _ => ns
  | StoreCall.create ns _ => ns
  | StoreCall.update ns _ => ns
  | StoreCall.delete ns _ _ => ns
  | StoreCall.listSts ns _ => ns
  | StoreCall.listPods ns _ => ns

/-- The verb of a store call. -/
def callVerb : StoreCall → Verb
  | StoreCall.get _ _ => Verb.GET
  | StoreCall.create _ _ => Verb.CREATE
  | StoreCall.update _ _ => Verb.UPDATE
  | StoreCall.delete _ _ _ => Verb.DELETE
  | StoreCall.listSts _ _ => Verb.LIST
  | StoreCall.listPods _ _ => Verb.LIST

/-- The object name a metric report for this call carries: the target name
for GET and DELETE, the object's name for CREATE and UPDATE, the sentinel for
list calls. -/
def metricNameOf : StoreCall → String
  | StoreCall.get _ n => n
  | StoreCall.create _ s => s.meta.name
  | StoreCall.update _ s => s.meta.name
  | StoreCall.delete _ n _ => n
  | StoreCall.listSts _ _ => NOT_APPLICABLE
  | StoreCall.listPods _ _ => NOT_APPLICABLE

/-- The error the client answers for a store call. -/
def callErr (c : StsClient) : StoreCall → Option K8sError
  | StoreCall.get ns n => errOf (c.get ns n)
  | StoreCall.create ns s => errOf (c.create ns s)
  | StoreCall.update ns s => errOf (c.update ns s)
  | StoreCall.delete ns n o => c.delete ns n o
  | StoreCall.listSts ns o => errOf (c.listSts ns o)
  | StoreCall.listPods ns o => errOf (c.listPods ns o)

/-- The one metric report a store call should produce: namespace, kind,
object name (sentinel for lists), verb, and the call's error. -/
def expectedReport (c : StsClient) (k : StoreCall) : MetricEvent :=
  ⟨callNs k, "StatefulSet", metricNameOf k, callVerb k, callErr c k⟩

/-- Modelled from the spec: the pod adapter's list-by-selector semantics.  A
pod matches a selector string when every comma-separated k=v requirement
appears among its labels; the empty selector has no requirements and matches
every pod. -/
def selectorMatches (sel : String) (podLabels : List (String × String)) : Bool :=
  if sel = "" then true
  else (sel.splitOn ",").all (fun req => podLabels.any (fun kv => kv.1 ++ "=" ++ kv.2 == req))

/-- Modelled from the spec: a pod store answering list-by-selector calls by
filtering a fixed pod table on namespace and selector. -/
def listPodsSem (pods : List Pod) : String → ListOptions → Except K8sError (List Pod) :=
  fun ns o => Except.ok (pods.filter (fun p => p.ns == ns && selectorMatches o.labelSelector p.labels))

/-! Concrete fixtures used by witnesses and counterexamples. -/

/-- A desired StatefulSet whose caller-supplied version token is "5". -/
def stsA : StatefulSet := ⟨⟨"redis-1", "5", "meta0"⟩, ⟨⟨[("app", "redis")]⟩, "spec0"⟩⟩

/-- The stored object the cluster holds, version token "10". -/
def storedA : StatefulSet := ⟨⟨"redis-1", "10", "metaS"⟩, ⟨⟨[]⟩, "specS"⟩⟩

/-- A NotFound error. -/
def errNF : K8sError := ⟨ErrKind.notFound, "statefulsets \x22redis-1\x22 not found"⟩

/-- A generic non-NotFound error. -/
def errBoom : K8sError := ⟨ErrKind.other, "wanted error"⟩

/-- A Forbidden error. -/
def errForbidden : K8sError := ⟨ErrKind.forbidden, "forbidden"⟩

/-- Client where the fetch says NotFound and the create fails. -/
def clientNFBoom : StsClient :=
  ⟨fun _ _ => Except.error errNF, fun _ _ => Except.error errBoom,
   fun _ s => Except.ok s, fun _ _ _ => none,
   fun _ _ => Except.ok [], fun _ _ => Except.ok []⟩

/-- Client where the fetch fails with Forbidden. -/
def clientForbidden : StsClient :=
  ⟨fun _ _ => Except.error errForbidden, fun _ s => Except.ok s,
   fun _ s => Except.ok s, fun _ _ _ => none,
   fun _ _ => Except.ok [], fun _ _ => Except.ok []⟩

/-- Client where the fetch succeeds with `storedA` (token "10"). -/
def clientStored : StsClient :=
  ⟨fun _ _ => Except.ok storedA, fun _ s => Except.ok s,
   fun _ s => Except.ok s, fun _ _ _ => none,
   fun _ _ => Except.ok [], fun _ _ => Except.ok []⟩

/-- A StatefulSet with two match labels, for the selector derivation. -/
def stsB : StatefulSet :=
  ⟨⟨"redis-1", "10", "metaB"⟩, ⟨⟨[("app", "redis"), ("role", "master")]⟩, "specB"⟩⟩

/-- Client where the fetch succeeds with `stsB` and the pod list returns a
fixed pod. -/
def clientPods : StsClient :=
  ⟨fun _ _ => Except.ok stsB, fun _ s => Except.ok s,
   fun _ s => Except.ok s, fun _ _ _ => none,
   fun _ _ => Except.ok [], fun _ _ => Except.ok [⟨"redis-0", "ns-a", [("app", "redis")]⟩]⟩

/-- A pod table: two pods in `ns-a`, one in `ns-b`. -/
def podsX : List Pod :=
  [⟨"redis-0", "ns-a", [("app", "redis")]⟩, ⟨"redis-1", "ns-a", []⟩, ⟨"other", "ns-b", []⟩]

/-- A StatefulSet whose selector has an empty match-labels mapping. -/
def stsEmpty : StatefulSet := ⟨⟨"redis-1", "1", "metaE"⟩, ⟨⟨[]⟩, "specE"⟩⟩

/-- Client where the fetch succeeds with `stsEmpty` and the pod list follows
the selector semantics over `podsX`. -/
def clientEmptySel : StsClient :=
  ⟨fun _ _ => Except.ok stsEmpty, fun _ s => Except.ok s,
   fun _ s => Except.ok s, fun _ _ _ => none,
   fun _ _ => Except.ok [], listPodsSem podsX⟩

/-- Client where create and update both fail with the same error value. -/
def clientBoom : StsClient :=
  ⟨fun _ _ => Except.error errNF, fun _ _ => Except.error errBoom,
   fun _ _ => Except.error errBoom, fun _ _ _ => none,
   fun _ _ => Except.ok [], fun _ _ => Except.ok []⟩

/-! Theorems for the claims. -/

/-- Claim C1: when the fetch fails with NotFound, the synchronizer invokes
create exactly once, never invokes update, and returns exactly the create
call's error component (none on success, the underlying error on failure). -/
theorem createOrUpdate_notFound_creates_once (c : StsClient) (ns : String)
    (sts : StatefulSet) (e : K8sError)
    (hget : c.get ns sts.meta.name = Except.error e) (hnf : isNotFound e = true) :
    ((createOrUpdateStatefulSet c ns sts).calls.countP (fun k => isCreateCall k)) = 1 ∧
    ((createOrUpdateStatefulSet c ns sts).calls.countP (fun k => isUpdateCall k)) = 0 ∧
    (createOrUpdateStatefulSet c ns sts).res.1 = errOf (c.create ns sts) := by
  simp [createOrUpdateStatefulSet, getStatefulSet, createStatefulSet, hget, hnf,
    List.countP_cons, isCreateCall, isUpdateCall]

/-- Witness for C1 at the concrete client whose fetch says NotFound and whose
create fails with `errBoom`. -/
theorem createOrUpdate_notFound_creates_once_witness :
    ((createOrUpdateStatefulSet clientNFBoom "ns-a" stsA).calls.countP (fun k => isCreateCall k)) = 1 ∧
    ((createOrUpdateStatefulSet clientNFBoom "ns-a" stsA).calls.countP (fun k => isUpdateCall k)) = 0 ∧
    (createOrUpdateStatefulSet clientNFBoom "ns-a" stsA).res.1 = errOf (clientNFBoom.create "ns-a" stsA) :=
  createOrUpdate_notFound_creates_once clientNFBoom "ns-a" stsA errNF rfl rfl

/-- Claim C2: when the fetch fails with any error other than NotFound, the
synchronizer returns that fetch error and the only store call issued is the
fetch itself: no create, update, or any other write is attempted. -/
theorem createOrUpdate_fetchError_stops (c : StsClient) (ns : String)
    (sts : StatefulSet) (e : K8sError)
    (hget : c.get ns sts.meta.name = Except.error e) (hnf : isNotFound e = false) :
    (createOrUpdateStatefulSet c ns sts).res.1 = some e ∧
    (createOrUpdateStatefulSet c ns sts).calls = [StoreCall.get ns sts.meta.name] := by
  simp [createOrUpdateStatefulSet, getStatefulSet, hget, hnf]

/-- Witness for C2 at the concrete client whose fetch fails with Forbidden. -/
theorem createOrUpdate_fetchError_stops_witness :
    (createOrUpdateStatefulSet clientForbidden "ns-a" stsA).res.1 = some errForbidden ∧
    (createOrUpdateStatefulSet clientForbidden "ns-a" stsA).calls = [StoreCall.get "ns-a" stsA.meta.name] :=
  createOrUpdate_fetchError_stops clientForbidden "ns-a" stsA errForbidden rfl rfl

/-- Claim C3: when the fetch succeeds with a stored object carrying version
token V, exactly one update call is issued and the object it carries has
version token V, whatever token the caller supplied on the desired object. -/
theorem createOrUpdate_update_carries_stored_version (c : StsClient) (ns : String)
    (sts stored : StatefulSet) (hget : c.get ns sts.meta.name = Except.ok stored) :
    (updateArgs (createOrUpdateStatefulSet c ns sts).calls).map
      (fun u => u.meta.resourceVersion) = [stored.meta.resourceVersion] := by
  simp [createOrUpdateStatefulSet, getStatefulSet, updateStatefulSet, hget,
    updateArgs, setResourceVersion]

/-- Witness for C3: the stored token is "10", the caller supplied "5"; the
update call carries "10". -/
theorem createOrUpdate_update_carries_stored_version_witness :
    (updateArgs (createOrUpdateStatefulSet clientStored "ns-a" stsA).calls).map
      (fun u => u.meta.resourceVersion) = [storedA.meta.resourceVersion] :=
  createOrUpdate_update_carries_stored_version clientStored "ns-a" stsA storedA rfl

/-- Claim C4: in every CreateOrUpdateStatefulSet execution, an update call is
issued exactly when the fetch succeeded, and a create call is issued exactly
when the fetch failed with NotFound; so update only follows a successful
fetch, and create never happens for an object whose fetch succeeded. -/
theorem createOrUpdate_fetch_gates_writes (c : StsClient) (ns : String)
    (sts : StatefulSet) :
    ((createOrUpdateStatefulSet c ns sts).calls.any (fun k => isUpdateCall k))
      = isOkB (c.get ns sts.meta.name) ∧
    ((createOrUpdateStatefulSet c ns sts).calls.any (fun k => isCreateCall k))
      = isNotFoundRes (c.get ns sts.meta.name) := by
  rcases hc : c.get ns sts.meta.name with e | stored
  · rcases hb : isNotFound e with _ | _ <;>
      simp [createOrUpdateStatefulSet, getStatefulSet, createStatefulSet, hc, hb,
        isOkB, isNotFoundRes, isCreateCall, isUpdateCall]
  · simp [createOrUpdateStatefulSet, getStatefulSet, updateStatefulSet, hc,
      isOkB, isNotFoundRes, isCreateCall, isUpdateCall]

/-- Counterexample to C5 as stated: on a successful fetch,
`GetStatefulSetPods` issues one pod LIST store call, yet no report with verb
LIST is ever sent to the metrics recorder — the pod LIST is not reported. -/
theorem getStatefulSetPods_list_not_reported :
    ((getStatefulSetPods clientEmptySel "ns-a" "redis-1").calls.countP
      (fun k => isListPodsCall k)) = 1 ∧
    ((getStatefulSetPods clientEmptySel "ns-a" "redis-1").events.countP
      (fun ev => match ev.verb with | Verb.LIST => true | _ => false)) = 0 := by
  constructor <;> rfl

/-- Claim C5 (amended): every store call of every StatefulSet service
operation produces exactly one metric report carrying the namespace, kind,
object name (sentinel for lists), verb and error — except the pod LIST issued
inside `GetStatefulSetPods`, which produces no report. -/
theorem metrics_report_per_call (c : StsClient) (ns name : String) (sts : StatefulSet) :
    (getStatefulSet c ns name).events
      = (getStatefulSet c ns name).calls.map (expectedReport c) ∧
    (createStatefulSet c ns sts).events
      = (createStatefulSet c ns sts).calls.map (expectedReport c) ∧
    (updateStatefulSet c ns sts).events
      = (updateStatefulSet c ns sts).calls.map (expectedReport c) ∧
    (deleteStatefulSet c ns name).events
      = (deleteStatefulSet c ns name).calls.map (expectedReport c) ∧
    (listStatefulSets c ns).events
      = (listStatefulSets c ns).calls.map (expectedReport c) ∧
    (createOrUpdateStatefulSet c ns sts).events
      = (createOrUpdateStatefulSet c ns sts).calls.map (expectedReport c) ∧
    (getStatefulSetPods c ns name).events
      = ((getStatefulSetPods c ns name).calls.filter
          (fun k => !(isListPodsCall k))).map (expectedReport c) := by
  refine ⟨rfl, rfl, rfl, rfl, rfl, ?_, ?_⟩
  · rcases hc : c.get ns sts.meta.name with e | stored
    · rcases hb : isNotFound e with _ | _ <;>
        simp [createOrUpdateStatefulSet, getStatefulSet, createStatefulSet, hc, hb,
          expectedReport, callNs, callVerb, metricNameOf, callErr, recordMetrics,
          setResourceVersion]
    · simp [createOrUpdateStatefulSet, getStatefulSet, updateStatefulSet, hc,
        expectedReport, callNs, callVerb, metricNameOf, callErr, recordMetrics,
        setResourceVersion]
  · rcases hc : c.get ns name with e | sts0
    · simp [getStatefulSetPods, getStatefulSet, hc, expectedReport, callNs,
        callVerb, metricNameOf, callErr, recordMetrics, isListPodsCall]
    · simp [getStatefulSetPods, getStatefulSet, hc, expectedReport, callNs,
        callVerb, metricNameOf, callErr, recordMetrics, isListPodsCall]

/-- Claim C6: DeleteStatefulSet always issues exactly one delete call, with
foreground cascading propagation, never with the default or orphaning policy,
and returns the client's answer. -/
theorem delete_foreground_propagation (c : StsClient) (ns name : String) :
    (deleteStatefulSet c ns name).calls
      = [StoreCall.delete ns name ⟨some PropagationPolicy.foreground⟩] ∧
    (deleteStatefulSet c ns name).res
      = c.delete ns name ⟨some PropagationPolicy.foreground⟩ := by
  constructor <;> rfl

/-- Claim C7: when the fetch succeeds, `GetStatefulSetPods` builds the
selector string from the match labels (k=v pairs joined by commas) and issues
exactly one pod list call with it in the same namespace, returning its
result. -/
theorem getStatefulSetPods_selector (c : StsClient) (ns name : String)
    (sts : StatefulSet) (hget : c.get ns name = Except.ok sts) :
    (getStatefulSetPods c ns name).res = c.listPods ns ⟨selectorOf sts⟩ ∧
    (getStatefulSetPods c ns name).calls
      = [StoreCall.get ns name, StoreCall.listPods ns ⟨selectorOf sts⟩] := by
  simp [getStatefulSetPods, getStatefulSet, hget]

/-- Witness for C7: with labels app=redis and role=master the selector string
is exactly "app=redis,role=master". -/
theorem getStatefulSetPods_selector_witness :
    ((getStatefulSetPods clientPods "ns-a" "redis-1").res
        = clientPods.listPods "ns-a" ⟨selectorOf stsB⟩ ∧
      (getStatefulSetPods clientPods "ns-a" "redis-1").calls
        = [StoreCall.get "ns-a" "redis-1", StoreCall.listPods "ns-a" ⟨selectorOf stsB⟩]) ∧
    selectorOf stsB = "app=redis,role=master" :=
  ⟨getStatefulSetPods_selector clientPods "ns-a" "redis-1" stsB rfl, rfl⟩

/-- Counterexample to C8 as stated: an update failing in namespace ns-a on
redis-1 and a create failing in namespace ns-b on a different object return
the identical error value, so the returned error is the client's error
verbatim, not wrapped with context identifying the namespace, name or verb. -/
theorem errors_returned_without_context :
    (updateStatefulSet clientBoom "ns-a" stsA).res = some errBoom ∧
    (createStatefulSet clientBoom "ns-b" storedA).res = some errBoom := by
  constructor <;> rfl

/-- Claim C8 (amended): every error other than a NotFound on fetch is
returned to the caller unchanged (verbatim, with no added wrapping), each
store verb is attempted at most once per operation (never retried
internally), and a write failure is never reported as success: the returned
error is exactly the failing client call's error. -/
theorem errors_propagated_verbatim_no_retry (c : StsClient) (ns : String)
    (sts : StatefulSet) :
    (updateStatefulSet c ns sts).res = errOf (c.update ns sts) ∧
    (updateStatefulSet c ns sts).calls = [StoreCall.update ns sts] ∧
    (createOrUpdateStatefulSet c ns sts).res.1
      = (match c.get ns sts.meta.name with
         | Except.error e => if isNotFound e then errOf (c.create ns sts) else some e
         | Except.ok stored =>
           errOf (c.update ns (setResourceVersion sts stored.meta.resourceVersion))) ∧
    (createOrUpdateStatefulSet c ns sts).calls.length ≤ 2 := by
  refine ⟨rfl, rfl, ?_, ?_⟩
  · rcases hc : c.get ns sts.meta.name with e | stored
    · rcases hb : isNotFound e with _ | _ <;>
        simp [createOrUpdateStatefulSet, getStatefulSet, createStatefulSet, hc, hb]
    · simp [createOrUpdateStatefulSet, getStatefulSet, updateStatefulSet, hc]
  · rcases hc : c.get ns sts.meta.name with e | stored
    · rcases hb : isNotFound e with _ | _ <;>
        simp [createOrUpdateStatefulSet, getStatefulSet, createStatefulSet, hc, hb]
    · simp [createOrUpdateStatefulSet, getStatefulSet, updateStatefulSet, hc]

/-- Claim C9: the synchronizer leaves the caller-supplied object unchanged in
every field except ResourceVersion, which is overwritten with the stored
object's token exactly on the update path (fetch succeeded) and left alone
otherwise. -/
theorem createOrUpdate_frame (c : StsClient) (ns : String) (sts : StatefulSet) :
    (createOrUpdateStatefulSet c ns sts).res.2.meta.name = sts.meta.name ∧
    (createOrUpdateStatefulSet c ns sts).res.2.meta.metaRest = sts.meta.metaRest ∧
    (createOrUpdateStatefulSet c ns sts).res.2.spec = sts.spec ∧
    (createOrUpdateStatefulSet c ns sts).res.2.meta.resourceVersion
      = (match c.get ns sts.meta.name with
         | Except.ok stored => stored.meta.resourceVersion
         | Except.error _ => sts.meta.resourceVersion) := by
  rcases hc : c.get ns sts.meta.name with e | stored
  · rcases hb : isNotFound e with _ | _ <;>
      simp [createOrUpdateStatefulSet, getStatefulSet, createStatefulSet, hc, hb,
        setResourceVersion]
  · simp [createOrUpdateStatefulSet, getStatefulSet, updateStatefulSet, hc,
      setResourceVersion]

/-- Claim C10: when the StatefulSet's match-labels mapping is empty, the pod
list call is issued with the empty selector string and, under the pod
adapter's selector semantics, returns every pod of the namespace. -/
theorem getStatefulSetPods_emptySelector_all_pods (pods : List Pod)
    (c : StsClient) (ns name : String) (sts : StatefulSet)
    (hlp : c.listPods = listPodsSem pods)
    (hget : c.get ns name = Except.ok sts)
    (hsel : sts.spec.selector.matchLabels = []) :
    (getStatefulSetPods c ns name).calls
      = [StoreCall.get ns name, StoreCall.listPods ns ⟨""⟩] ∧
    (getStatefulSetPods c ns name).res
      = Except.ok (pods.filter (fun p => p.ns == ns)) := by
  have hs : selectorOf sts = "" := by
    simp [selectorOf, hsel]
    rfl
  constructor
  · simp [getStatefulSetPods, getStatefulSet, hget, hs]
  · simp [getStatefulSetPods, getStatefulSet, hget, hs, hlp, listPodsSem,
      selectorMatches]

/-- Witness for C10: with an empty selector over `podsX`, the result is the
two pods of namespace ns-a, not the empty list. -/
theorem getStatefulSetPods_emptySelector_all_pods_witness :
    ((getStatefulSetPods clientEmptySel "ns-a" "redis-1").calls
        = [StoreCall.get "ns-a" "redis-1", StoreCall.listPods "ns-a" ⟨""⟩] ∧
      (getStatefulSetPods clientEmptySel "ns-a" "redis-1").res
        = Except.ok (podsX.filter (fun p => p.ns == "ns-a"))) ∧
    podsX.filter (fun p => p.ns == "ns-a")
      = [⟨"redis-0", "ns-a", [("app", "redis")]⟩, ⟨"redis-1", "ns-a", []⟩] :=
  ⟨getStatefulSetPods_emptySelector_all_pods podsX clientEmptySel "ns-a" "redis-1"
      stsEmpty rfl rfl rfl, rfl⟩
